import Mathlib

/-!
Verification of the gofortuna repository: a shallow embedding of the
Fortuna PRNG sources (packages fortuna and tunafish) together with
theorems about the embedded operations. Bytes are modelled as natural
numbers below 256, byte slices as lists, and machine arithmetic carries
an explicit modulus where the Go code overflows.
-/

/-- Reduction of a natural number to 32 bits, matching Go uint32 arithmetic. -/
def w32 (x : Nat) : Nat := x % 4294967296

/-- Right rotation of a 32-bit word by n bits. -/
def rotr32 (n x : Nat) : Nat := w32 ((x >>> n) ||| (x <<< (32 - n)))

/-- Semantics of the Go built-in copy with a byte-slice destination: the
source is written over the prefix of the destination, and the length of
the destination is unchanged. -/
def listCopy (dst src : List Nat) : List Nat :=
  src.take dst.length ++ dst.drop (min dst.length src.length)

/-- Round constants of SHA-256 (FIPS 180-4), as used by Go crypto/sha256,
which the repository calls for pool digests and key updates. -/
def shaK : List Nat :=
  [1116352408, 1899447441, 3049323471, 3921009573, 961987163, 1508970993,
   2453635748, 2870763221, 3624381080, 310598401, 607225278, 1426881987,
   1925078388, 2162078206, 2614888103, 3248222580, 3835390401, 4022224774,
   264347078, 604807628, 770255983, 1249150122, 1555081692, 1996064986,
   2554220882, 2821834349, 2952996808, 3210313671, 3336571891, 3584528711,
   113926993, 338241895, 666307205, 773529912, 1294757372, 1396182291,
   1695183700, 1986661051, 2177026350, 2456956037, 2730485921, 2820302411,
   3259730800, 3345764771, 3516065817, 3600352804, 4094571909, 275423344,
   430227734, 506948616, 659060556, 883997877, 958139571, 1322822218,
   1537002063, 1747873779, 1955562222, 2024104815, 2227730452, 2361852424,
   2428436474, 2756734187, 3204031479, 3329325298]

/-- Initial hash state of SHA-256 (FIPS 180-4). -/
def shaH0 : List Nat :=
  [1779033703, 3144134277, 1013904242, 2773480762,
   1359893119, 2600822924, 528734635, 1541459225]

/-- Big-endian encoding of a number on 8 bytes, for the SHA-256 length field. -/
def beBytes8 (n : Nat) : List Nat :=
  [n / 2 ^ 56 % 256, n / 2 ^ 48 % 256, n / 2 ^ 40 % 256, n / 2 ^ 32 % 256,
   n / 2 ^ 24 % 256, n / 2 ^ 16 % 256, n / 2 ^ 8 % 256, n % 256]

/-- Big-endian packing of bytes into 32-bit words. -/
def words32 : List Nat → List Nat
  | b0 :: b1 :: b2 :: b3 :: rest => (((b0 * 256 + b1) * 256 + b2) * 256 + b3) :: words32 rest
  | _ => []

/-- Big-endian bytes of one 32-bit word. -/
def wordBytes (w : Nat) : List Nat :=
  [w / 2 ^ 24 % 256, w / 2 ^ 16 % 256, w / 2 ^ 8 % 256, w % 256]

/-- SHA-256 message padding: a 0x80 byte, zeros to 56 mod 64, then the
bit length on 8 big-endian bytes. -/
def shaPad (msg : List Nat) : List Nat :=
  msg ++ [128] ++ List.replicate ((119 - msg.length % 64) % 64) 0 ++ beBytes8 (8 * msg.length)

/-- Fuel-indexed splitting of a byte list into 64-byte blocks. -/
def chunks64Go : Nat → List Nat → List (List Nat)
  | 0, _ => []
  | _ + 1, [] => []
  | n + 1, l => l.take 64 :: chunks64Go n (l.drop 64)

/-- Splitting of a byte list into 64-byte blocks. -/
def chunks64 (l : List Nat) : List (List Nat) := chunks64Go l.length l

/-- Small sigma-0 function of SHA-256. -/
def sSig0 (x : Nat) : Nat := rotr32 7 x ^^^ rotr32 18 x ^^^ (x >>> 3)

/-- Small sigma-1 function of SHA-256. -/
def sSig1 (x : Nat) : Nat := rotr32 17 x ^^^ rotr32 19 x ^^^ (x >>> 10)

/-- Big Sigma-0 function of SHA-256. -/
def bSig0 (x : Nat) : Nat := rotr32 2 x ^^^ rotr32 13 x ^^^ rotr32 22 x

/-- Big Sigma-1 function of SHA-256. -/
def bSig1 (x : Nat) : Nat := rotr32 6 x ^^^ rotr32 11 x ^^^ rotr32 25 x

/-- Choice function of SHA-256. -/
def shaCh (x y z : Nat) : Nat := (x &&& y) ^^^ ((x ^^^ 0xffffffff) &&& z)

/-- Majority function of SHA-256. -/
def shaMaj (x y z : Nat) : Nat := (x &&& y) ^^^ (x &&& z) ^^^ (y &&& z)

/-- One extension step of the SHA-256 message schedule: appends the next
word computed from the last sixteen. -/
def shaExtStep (w : List Nat) : List Nat :=
  w ++ [w32 (sSig1 (w.getD (w.length - 2) 0) + w.getD (w.length - 7) 0 +
             sSig0 (w.getD (w.length - 15) 0) + w.getD (w.length - 16) 0)]

/-- One round of the SHA-256 compression function; the state is the list
of the eight working variables and kw is the sum of the round constant
and the schedule word. -/
def shaRound (st : List Nat) (kw : Nat) : List Nat :=
  match st with
  | [a, b, c, d, e, f, g, h] =>
    let t1 := w32 (h + bSig1 e + shaCh e f g + kw)
    let t2 := w32 (bSig0 a + shaMaj a b c)
    [w32 (t1 + t2), a, b, c, w32 (d + t1), e, f, g]
  | other => other

/-- SHA-256 compression of one 64-byte block into the running hash state. -/
def shaCompress (hs : List Nat) (block : List Nat) : List Nat :=
  let w := shaExtStep^[48] (words32 block)
  let kw := List.zipWith (fun a b => w32 (a + b)) shaK w
  let st := kw.foldl shaRound hs
  List.zipWith (fun a b => w32 (a + b)) hs st

/-- SHA-256 digest of a byte list, modelling Go crypto/sha256 as the
repository uses it (hash of the concatenation of all written inputs). -/
def sha256 (msg : List Nat) : List Nat :=
  (((chunks64 (shaPad msg)).foldl shaCompress shaH0).map wordBytes).flatten

/-- Byte list of a Go string literal; the strings appearing in the
repository are ASCII, where UTF-8 bytes coincide with code points. -/
def strBytes (s : String) : List Nat := s.data.map Char.toNat

/-- Errors returned by the fortuna and tunafish packages, from the
sentinel values declared in src/fortuna/doc.go, src/fortuna/fortuna.go
and src/tunafish/prng.go. -/
inductive Err where
  | notSeeded
  | invalidEvent
  | invalidSeed
  | notInitialised
  | keySize
  | readTooLarge
deriving DecidableEq, Repr

/-- Limit on a single generator read, from MaxRead in src/fortuna/fortuna.go. -/
def MaxRead : Nat := 1048576

/-- Generator state from src/fortuna/fortuna.go: a 32-byte AES-256 key
and a 16-byte little-endian counter, both held as byte lists. -/
structure Generator where
  key : List Nat
  ctr : List Nat
deriving DecidableEq, Repr

/-- Increment of the 16-byte little-endian counter, from incCounter in
src/fortuna/fortuna.go: bump the lowest byte and carry while a byte
wraps to zero. -/
def incCounter : List Nat → List Nat
  | [] => []
  | b :: bs => if (b + 1) % 256 = 0 then 0 :: incCounter bs else ((b + 1) % 256) :: bs

/-- Fresh generator from New in src/fortuna/fortuna.go: all-zero key and counter. -/
def Generator.new : Generator :=
  { key := List.replicate 32 0, ctr := List.replicate 16 0 }

/-- Shared body of Reseed and Write in src/fortuna/fortuna.go: the key
becomes SHA-256 of the old key followed by the input, and the counter
is incremented once. -/
def Generator.reseedBytes (g : Generator) (s : List Nat) : Generator :=
  { key := listCopy g.key (sha256 (g.key ++ s)), ctr := incCounter g.ctr }

/-- Reseed from src/fortuna/fortuna.go, taking a Go string. -/
def Generator.reseed (g : Generator) (s : String) : Generator :=
  g.reseedBytes (strBytes s)

/-- Write from src/fortuna/fortuna.go: same update as Reseed, returning
the length of the input as the Go byte count. -/
def Generator.write (g : Generator) (bs : List Nat) : Nat × Generator :=
  (bs.length, g.reseedBytes bs)

/-- Loop body of generateBlocks in src/fortuna/fortuna.go, parametric in
the AES-256 block encryption enc (key, counter block to output block):
k blocks of counter-mode output together with the final counter. -/
def generateBlocksGo (enc : List Nat → List Nat → List Nat) (key : List Nat) :
    Nat → List Nat → List Nat × List Nat
  | 0, ctr => ([], ctr)
  | k + 1, ctr =>
    let block := enc key ctr
    let rest := generateBlocksGo enc key k (incCounter ctr)
    (block ++ rest.1, rest.2)

/-- generateBlocks from src/fortuna/fortuna.go: constructs the cipher,
failing exactly when the key length is not a valid AES key size as Go
crypto/aes NewCipher does, then produces k blocks, incrementing the
counter after each. -/
def Generator.generateBlocks (enc : List Nat → List Nat → List Nat)
    (g : Generator) (k : Nat) : Except Err (List Nat × Generator) :=
  if g.key.length = 16 ∨ g.key.length = 24 ∨ g.key.length = 32 then
    let out := generateBlocksGo enc g.key k g.ctr
    .ok (out.1, { g with ctr := out.2 })
  else
    .error .keySize

/-- Read from src/fortuna/fortuna.go: a nil destination yields (0, ok);
a destination beyond MaxRead is rejected; otherwise ceil(n/16) blocks
are produced, two further blocks become the next key, and the request
length is returned. The result is the filled destination, the returned
count, the returned error and the final state. -/
def Generator.read (enc : List Nat → List Nat → List Nat) (g : Generator)
    (bs : Option (List Nat)) : List Nat × Nat × Option Err × Generator :=
  match bs with
  | none => ([], 0, none, g)
  | some b =>
    if b.length > MaxRead then (b, 0, some .readTooLarge, g)
    else
      let k := b.length / 16 + (if b.length % 16 = 0 then 0 else 1)
      match g.generateBlocks enc k with
      | .error e => (b, 0, some e, g)
      | .ok rg =>
        match rg.2.generateBlocks enc 2 with
        | .error e => (b, 0, some e, rg.2)
        | .ok nkg => (listCopy b rg.1, b.length, none,
            { nkg.2 with key := listCopy nkg.2.key nkg.1 })

/-- Sanity anchor for the SHA-256 embedding: the digest of the empty
message matches the standard test vector. -/
theorem sha256_empty_vector : sha256 [] =
    [227, 176, 196, 66, 152, 252, 28, 20, 154, 251, 244, 200,
     153, 111, 185, 36, 39, 174, 65, 228, 100, 155, 147, 76,
     164, 149, 153, 27, 120, 82, 184, 85] := by
  decide

/-- Entropy pool from src/fortuna/doc.go: an append buffer of pending
bytes and the count of bytes written since the last drain. -/
structure Pool where
  hash : List Nat
  written : Int
deriving DecidableEq, Repr

/-- Empty pool, as New in src/fortuna/doc.go allocates each pool. -/
def Pool.empty : Pool := { hash := [], written := 0 }

/-- Number of pool-0 bytes that triggers a reseed, from MinPoolSize in
src/fortuna/doc.go. -/
def MinPoolSize : Int := 48

/-- Minimal delay between reseeds in nanoseconds, from ReseedDelay in
src/fortuna/doc.go (100 milliseconds). -/
def ReseedDelay : Int := 100000000

/-- Largest event payload accepted, from MaxEventSize in src/fortuna/doc.go. -/
def MaxEventSize : Nat := 32

/-- Fortuna accumulator state from src/fortuna/doc.go: the initialised
flag, the 32 pools, the 32-bit reseed counter, the generator and the
time of the last reseed (nanoseconds, as Go time instants compare). -/
structure Fortuna where
  initialised : Bool
  pools : List Pool
  counter : Nat
  g : Generator
  lastReseed : Int
deriving DecidableEq, Repr

/-- New from src/fortuna/doc.go: 32 empty pools, counter 0, a fresh
generator and the zero reseed time, marked initialised. -/
def Fortuna.new : Fortuna :=
  { initialised := true, pools := List.replicate 32 Pool.empty, counter := 0,
    g := Generator.new, lastReseed := 0 }

/-- Initialised from src/fortuna/doc.go on a possibly nil receiver: a
nil pointer reports false without touching any field. -/
def Fortuna.initialisedOpt : Option Fortuna → Bool
  | none => false
  | some rng => rng.initialised

/-- mustReseed from src/fortuna/doc.go: pool 0 has reached MinPoolSize
and the current time is strictly after lastReseed plus ReseedDelay
(time.Time.After is a strict comparison). -/
def Fortuna.mustReseed (rng : Fortuna) (now : Int) : Bool :=
  decide ((rng.pools.getD 0 Pool.empty).written ≥ MinPoolSize) &&
    decide (now > rng.lastReseed + ReseedDelay)

/-- Pool-selection test of reseed in src/fortuna/doc.go, as the source
writes it: the bitwise OR of 1 shifted by the pool index with the new
counter value, compared against zero. -/
def reseedPoolCond (i counter : Nat) : Bool := (1 <<< i) ||| counter ≠ 0

/-- Pool-selection test as the specification states it: the counter is
a multiple of 2 to the pool index. -/
def specPoolCond (i counter : Nat) : Bool := counter % 2 ^ i = 0

/-- reseed from src/fortuna/doc.go: increments the 32-bit counter, then
walks the 32 pools in order, and for each pool passing the selection
test appends the SHA-256 digest of its buffer to the reseed string and
empties the buffer; finally the reseed string is written into the
generator and lastReseed becomes the current time. -/
def Fortuna.reseed (rng : Fortuna) (now : Int) : Fortuna :=
  let counter := (rng.counter + 1) % 4294967296
  let step := fun (acc : List Nat × List Pool) (i : Nat) =>
    if reseedPoolCond i counter then
      (acc.1 ++ sha256 (acc.2.getD i Pool.empty).hash,
       acc.2.set i { acc.2.getD i Pool.empty with hash := [] })
    else acc
  let sp := (List.range 32).foldl step ([], rng.pools)
  { rng with counter := counter, pools := sp.2,
             g := (rng.g.write sp.1).2, lastReseed := now }

/-- Read from src/fortuna/doc.go: run the reseed check first, fail with
NotSeeded while the counter is zero, return (0, ok) on a nil
destination, and otherwise delegate to the generator. The result is
the filled destination, the count, the error and the final state. -/
def Fortuna.read (enc : List Nat → List Nat → List Nat) (rng : Fortuna)
    (now : Int) (p : Option (List Nat)) : List Nat × Nat × Option Err × Fortuna :=
  let rng := if rng.mustReseed now then rng.reseed now else rng
  if rng.counter = 0 then ([], 0, some .notSeeded, rng)
  else
    match p with
    | none => ([], 0, none, rng)
    | some b =>
      let out := rng.g.read enc (some b)
      (out.1, out.2.1, out.2.2.1, { rng with g := out.2.2.2 })

/-- AddRandomEvent from src/fortuna/doc.go: rejects an uninitialised
receiver, then a nil, empty or oversized payload, then a pool index
below 0 or above len(pools) = 32; the surviving index is used to access
the pool array, which for index 32 is out of range — modelled as none,
the Go runtime panic. A valid event appends the source byte, the
payload length byte and the payload, and advances written by the
payload length plus 2. -/
def Fortuna.addRandomEvent (rng : Fortuna) (s : Nat) (i : Int)
    (e : Option (List Nat)) : Option (Except Err Fortuna) :=
  if rng.initialised = false then some (.error .notInitialised)
  else if e = none ∨ (e.getD []).length = 0 ∨ (e.getD []).length > MaxEventSize then
    some (.error .invalidEvent)
  else if i < 0 ∨ i > 32 then some (.error .invalidEvent)
  else
    match rng.pools.get? i.toNat with
    | none => none
    | some p =>
      let ev := e.getD []
      let p2 := { p with hash := p.hash ++ [s % 256, ev.length % 256] ++ ev,
                         written := p.written + ((ev.length : Int) + 2) }
      some (.ok { rng with pools := rng.pools.set i.toNat p2 })

/-- ReadSeed from src/fortuna/doc.go: rejects a blob whose length is
not SeedFileLength = 64, otherwise writes it into the generator and
increments the reseed counter. -/
def Fortuna.readSeed (rng : Fortuna) (p : List Nat) : Except Err Fortuna :=
  if p.length ≠ 64 then .error .invalidSeed
  else .ok { rng with g := (rng.g.write p).2,
                      counter := (rng.counter + 1) % 4294967296 }

/-- Number of pool-0 bytes that triggers a reseed in the tunafish
variant, from MinPoolSize in src/tunafish/prng.go. -/
def TunaMinPoolSize : Int := 32

/-- Tunafish accumulator state from src/tunafish/prng.go; the fields
mirror the fortuna ones. Its generator is not under src (only its
tests are); per the specification the generator is the same AES-256
plus SHA-256 construction, so the fortuna Generator is reused. -/
structure Tunafish where
  initialised : Bool
  pools : List Pool
  counter : Nat
  g : Generator
  lastReseed : Int
deriving DecidableEq, Repr

/-- New from src/tunafish/prng.go. -/
def Tunafish.new : Tunafish :=
  { initialised := true, pools := List.replicate 32 Pool.empty, counter := 0,
    g := Generator.new, lastReseed := 0 }

/-- Initialised from src/tunafish/prng.go on a possibly nil receiver. -/
def Tunafish.initialisedOpt : Option Tunafish → Bool
  | none => false
  | some rng => rng.initialised

/-- mustReseed from src/tunafish/prng.go. -/
def Tunafish.mustReseed (rng : Tunafish) (now : Int) : Bool :=
  decide ((rng.pools.getD 0 Pool.empty).written ≥ TunaMinPoolSize) &&
    decide (now > rng.lastReseed + ReseedDelay)

/-- reseed from src/tunafish/prng.go, identical to the fortuna one
except that the pool digest is Keccak-256, passed here as the
parameter ph since its code is outside the repository. -/
def Tunafish.reseed (ph : List Nat → List Nat) (rng : Tunafish) (now : Int) : Tunafish :=
  let counter := (rng.counter + 1) % 4294967296
  let step := fun (acc : List Nat × List Pool) (i : Nat) =>
    if reseedPoolCond i counter then
      (acc.1 ++ ph (acc.2.getD i Pool.empty).hash,
       acc.2.set i { acc.2.getD i Pool.empty with hash := [] })
    else acc
  let sp := (List.range 32).foldl step ([], rng.pools)
  { rng with counter := counter, pools := sp.2,
             g := (rng.g.write sp.1).2, lastReseed := now }

/-- Read from src/tunafish/prng.go, with the same shape as the fortuna
Read. -/
def Tunafish.read (enc : List Nat → List Nat → List Nat)
    (ph : List Nat → List Nat) (rng : Tunafish) (now : Int)
    (p : Option (List Nat)) : List Nat × Nat × Option Err × Tunafish :=
  let rng := if rng.mustReseed now then rng.reseed ph now else rng
  if rng.counter = 0 then ([], 0, some .notSeeded, rng)
  else
    match p with
    | none => ([], 0, none, rng)
    | some b =>
      let out := rng.g.read enc (some b)
      (out.1, out.2.1, out.2.2.1, { rng with g := out.2.2.2 })

/-- ReadSeed from src/tunafish/prng.go: rejects a blob whose length is
not 64 and otherwise writes it into the generator; unlike the fortuna
variant it leaves the reseed counter untouched. -/
def Tunafish.readSeed (rng : Tunafish) (p : List Nat) : Except Err Tunafish :=
  if p.length ≠ 64 then .error .invalidSeed
  else .ok { rng with g := (rng.g.write p).2 }

/-! Helper lemmas shared by several claims. -/

/-- Go copy into a byte slice never changes the length of the destination. -/
theorem listCopy_length (dst src : List Nat) : (listCopy dst src).length = dst.length := by
  simp [listCopy]

/-- generateBlocks produces exactly 16 bytes per requested block when
the cipher emits 16-byte blocks. -/
theorem generateBlocksGo_len (enc : List Nat → List Nat → List Nat)
    (henc : ∀ key c, (enc key c).length = 16) (key : List Nat) :
    ∀ (k : Nat) (ctr : List Nat), (generateBlocksGo enc key k ctr).1.length = 16 * k := by
  intro k
  induction k with
  | zero => intro ctr; rfl
  | succ n ih =>
    intro ctr
    simp [generateBlocksGo, henc, ih]
    omega

/-- The block loop advances the counter by one increment per block. -/
theorem generateBlocksGo_ctr (enc : List Nat → List Nat → List Nat) (key : List Nat) :
    ∀ (k : Nat) (ctr : List Nat), (generateBlocksGo enc key k ctr).2 = incCounter^[k] ctr := by
  intro k
  induction k with
  | zero => intro ctr; rfl
  | succ n ih =>
    intro ctr
    simp [generateBlocksGo, ih, Function.iterate_succ_apply]

/-- With a 32-byte key the cipher construction in generateBlocks
succeeds and the result is the block-loop output. -/
theorem generateBlocks_ok (enc : List Nat → List Nat → List Nat)
    (g : Generator) (hk : g.key.length = 32) (k : Nat) :
    g.generateBlocks enc k =
      .ok ((generateBlocksGo enc g.key k g.ctr).1,
           { g with ctr := (generateBlocksGo enc g.key k g.ctr).2 }) := by
  unfold Generator.generateBlocks
  rw [if_pos (Or.inr (Or.inr hk))]

deriving instance DecidableEq for Except

/-- Placeholder block cipher used to instantiate parametric statements
at concrete inputs. -/
def encDummy : List Nat → List Nat → List Nat := fun _ _ => List.replicate 16 0

/-- Placeholder pool hash used to instantiate the tunafish Keccak-256
parameter at concrete inputs. -/
def phDummy : List Nat → List Nat := fun _ => []

/-! Claim C1. -/

/-- Concrete accumulator exhibiting the reseed-schedule divergence: a
fresh instance whose pool 1 holds one buffered event. -/
def stC1 : Fortuna :=
  { Fortuna.new with
    pools := (List.replicate 32 Pool.empty).set 1 { hash := [1, 1, 7], written := 3 } }

/-- C1: at the first reseed the counter becomes 1 and the stated
schedule selects only pool 0 (1 mod 2 is not 0, so pool 1 must stay
untouched), but the source condition (1 <<< i) ||| counter is nonzero
for every pool index, so the code digests and clears pool 1 (and every
other pool) already at reseed 1. -/
theorem reseed_schedule_divergence :
    reseedPoolCond 1 1 = true ∧ specPoolCond 1 1 = false ∧
    ((stC1.reseed 0).pools.getD 1 Pool.empty).hash = [] ∧
    (stC1.reseed 0).counter = 1 ∧
    (∀ i < 32, reseedPoolCond i 1 = true) := by
  decide

/-! Claim C2. -/

/-- C2: AddRandomEvent validation at the boundaries. Index 33, a
negative index, a nil payload, an empty payload and a 33-byte payload
are all rejected with InvalidEvent, but index 32 passes the source
bound i > len(pools) and reaches the out-of-range pool access (a Go
runtime panic, modelled as none) instead of returning InvalidEvent. -/
theorem addRandomEvent_boundary_divergence :
    Fortuna.addRandomEvent Fortuna.new 0 32 (some [1]) = none ∧
    Fortuna.addRandomEvent Fortuna.new 0 33 (some [1]) = some (.error .invalidEvent) ∧
    Fortuna.addRandomEvent Fortuna.new 0 (-1) (some [1]) = some (.error .invalidEvent) ∧
    Fortuna.addRandomEvent Fortuna.new 0 0 none = some (.error .invalidEvent) ∧
    Fortuna.addRandomEvent Fortuna.new 0 0 (some []) = some (.error .invalidEvent) ∧
    Fortuna.addRandomEvent Fortuna.new 0 0 (some (List.replicate 33 1)) =
      some (.error .invalidEvent) := by
  decide

/-! Claim C3. -/

/-- C3: the tunafish ReadSeed accepts a 64-byte blob on a fresh
instance but leaves the reseed counter at 0, so the next Read still
fails with NotSeeded; the fortuna variant of ReadSeed increments the
counter to 1 as the claim requires. -/
theorem tunafish_readSeed_leaves_unseeded :
    (Tunafish.new.readSeed (List.replicate 64 0)).toOption.isSome = true ∧
    ((Tunafish.new.readSeed (List.replicate 64 0)).toOption.getD Tunafish.new).counter = 0 ∧
    (Tunafish.read encDummy phDummy
        ((Tunafish.new.readSeed (List.replicate 64 0)).toOption.getD Tunafish.new)
        0 (some [0])).2.2.1 = some Err.notSeeded ∧
    ((Fortuna.new.readSeed (List.replicate 64 0)).toOption.getD Fortuna.new).counter = 1 := by
  decide

/-! Claim C10. -/

/-- C10: Initialised on a nil receiver returns false in both packages,
without reading any field of the instance, while an initialised
instance reports true. -/
theorem initialised_nil_receiver :
    Fortuna.initialisedOpt none = false ∧ Tunafish.initialisedOpt none = false ∧
    Fortuna.initialisedOpt (some Fortuna.new) = true ∧
    Tunafish.initialisedOpt (some Tunafish.new) = true := by
  decide

/-! Claim C4. -/

/-- Seeded accumulator whose pool 0 has passed the reseed threshold and
whose delay has elapsed by time 200000000. -/
def stC4 : Fortuna :=
  { Fortuna.new with
      counter := 1,
      pools := (List.replicate 32 Pool.empty).set 0
        { hash := List.replicate 48 1, written := 48 } }

/-- C4 counterexample: on a seeded instance a nil-destination Read does
return (0, ok), but it runs the reseed check first; here the check
fires, so the call mutates the state (the reseed counter moves from 1
to 2 and the pools are drained) rather than leaving it unchanged. -/
theorem nil_read_mutates_counterexample :
    (Fortuna.read encDummy stC4 200000000 none).2.1 = 0 ∧
    (Fortuna.read encDummy stC4 200000000 none).2.2.1 = none ∧
    (Fortuna.read encDummy stC4 200000000 none).2.2.2 ≠ stC4 ∧
    (Fortuna.read encDummy stC4 200000000 none).2.2.2.counter = 2 := by
  decide

/-- C4 as amended: on a seeded instance a nil-destination Read returns
(0, ok), and when the reseed trigger is not satisfied at the call the
whole state — generator key and counter, pools, lastReseed — is
returned unchanged. -/
theorem nil_read_frame (enc : List Nat → List Nat → List Nat)
    (rng : Fortuna) (now : Int) (hseed : 1 ≤ rng.counter)
    (hmr : rng.mustReseed now = false) :
    Fortuna.read enc rng now none = ([], 0, none, rng) := by
  have hc : ¬ rng.counter = 0 := by omega
  unfold Fortuna.read
  rw [hmr]
  simp [hc]

/-- Concrete seeded instance whose reseed trigger is off. -/
def stW4 : Fortuna := { Fortuna.new with counter := 1 }

/-- Witness for the amended C4 at a concrete seeded instance. -/
theorem nil_read_frame_witness :
    Fortuna.read encDummy stW4 0 none = ([], 0, none, stW4) :=
  nil_read_frame encDummy stW4 0 (by decide) (by decide)

/-! Claim C5. -/

/-- Accumulator at the exact reseed-delay boundary: pool 0 full, and the
current time exactly lastReseed plus ReseedDelay. -/
def stC5 : Fortuna :=
  { Fortuna.new with
      counter := 1,
      pools := (List.replicate 32 Pool.empty).set 0
        { hash := List.replicate 48 2, written := 48 } }

/-- C5 counterexample: at time lastReseed + ReseedDelay exactly, both
conjuncts of the claim hold (pool 0 at MinPoolSize, now at least
lastReseed + ReseedDelay) yet mustReseed returns false, because the
source uses the strict time.Time.After comparison. -/
theorem mustReseed_boundary_counterexample :
    (stC5.pools.getD 0 Pool.empty).written ≥ MinPoolSize ∧
    (100000000 : Int) ≥ stC5.lastReseed + ReseedDelay ∧
    stC5.mustReseed 100000000 = false := by
  decide

/-- C5 as amended: mustReseed returns true iff pool 0 has written at
least MinPoolSize bytes and the current time is strictly after
lastReseed plus ReseedDelay; and whenever mustReseed is false, Read
leaves every pool untouched (no pool is drained), whatever the
destination. -/
theorem mustReseed_spec (rng : Fortuna) (now : Int) :
    (rng.mustReseed now = true ↔
      ((rng.pools.getD 0 Pool.empty).written ≥ MinPoolSize ∧
        now > rng.lastReseed + ReseedDelay)) ∧
    (rng.mustReseed now = false →
      ∀ enc p, (Fortuna.read enc rng now p).2.2.2.pools = rng.pools) := by
  constructor
  · simp [Fortuna.mustReseed]
  · intro h enc p
    unfold Fortuna.read
    rw [h]
    by_cases hc : rng.counter = 0
    · simp [hc]
    · cases p with
      | none => simp [hc]
      | some b => simp [hc]

/-- Witness for the amended C5 at a fresh instance with a nil read. -/
theorem mustReseed_spec_witness :
    (Fortuna.read encDummy Fortuna.new 0 none).2.2.2.pools = Fortuna.new.pools :=
  (mustReseed_spec Fortuna.new 0).2 (by decide) encDummy none

/-! Claim C6. -/

/-- C6: from the initial generator state (zero key, zero counter),
Reseed with the string initial state yields the documented SHA-256 key
8df823ade13d19bb8d73973193c50cf02559afcaf460397d1a459e1d3466941c and
the 16 counter bytes 01 00 .. 00. -/
theorem reseed_initial_state_vector :
    (Generator.new.reseed ("initial state")).key =
      [141, 248, 35, 173, 225, 61, 25, 187, 141, 115, 151, 49,
       147, 197, 12, 240, 37, 89, 175, 202, 244, 96, 57, 125,
       26, 69, 158, 29, 52, 102, 148, 28] ∧
    (Generator.new.reseed ("initial state")).ctr = 1 :: List.replicate 15 0 := by
  decide

/-! Claim C7. -/

/-- C7: with the 32-byte key the generator always carries, the flat
generator Read serves every destination of length at most MaxRead =
2 to the 20 completely — the returned count and the filled destination
both have exactly the requested length and the error is nil — while a
larger destination is rejected with ErrReadTooLarge and a zero count. -/
theorem generator_read_length (enc : List Nat → List Nat → List Nat)
    (g : Generator) (hk : g.key.length = 32) (bs : List Nat) :
    (bs.length ≤ MaxRead →
      (g.read enc (some bs)).2.1 = bs.length ∧
      (g.read enc (some bs)).2.2.1 = none ∧
      (g.read enc (some bs)).1.length = bs.length) ∧
    (MaxRead < bs.length →
      (g.read enc (some bs)).2.1 = 0 ∧
      (g.read enc (some bs)).2.2.1 = some Err.readTooLarge) := by
  constructor
  · intro hle
    have hgt : ¬ bs.length > MaxRead := by omega
    simp [Generator.read, hgt, generateBlocks_ok, hk, listCopy_length]
  · intro hlt
    have hgt : bs.length > MaxRead := by omega
    simp [Generator.read, hgt]

/-- Witness for C7: a fresh generator read of 24 bytes under the
placeholder cipher returns count 24, no error, and a 24-byte result. -/
theorem generator_read_length_witness :
    (Generator.new.read encDummy (some (List.replicate 24 0))).2.1 = 24 ∧
    (Generator.new.read encDummy (some (List.replicate 24 0))).2.2.1 = none ∧
    (Generator.new.read encDummy (some (List.replicate 24 0))).1.length = 24 := by
  have h := (generator_read_length encDummy
    Generator.new (by decide) (List.replicate 24 0)).1 (by decide)
  simpa using h

/-! Claim C8. -/

/-- Value of the counter bytes read as a little-endian integer. -/
def ctrVal (l : List Nat) : Nat := l.foldr (fun b acc => b + 256 * acc) 0

/-- Unfolding of the little-endian value on a cons cell. -/
theorem ctrVal_cons (b : Nat) (bs : List Nat) : ctrVal (b :: bs) = b + 256 * ctrVal bs := rfl

/-- A list of bytes below 256 encodes a value below 256 to its length. -/
theorem ctrVal_lt (l : List Nat) (h : ∀ b ∈ l, b < 256) :
    ctrVal l < 256 ^ l.length := by
  induction l with
  | nil => simp [ctrVal]
  | cons b bs ih =>
    have hb : b < 256 := h b (by simp)
    have hbs : ctrVal bs < 256 ^ bs.length := ih (fun x hx => h x (by simp [hx]))
    have h2 : 256 * (ctrVal bs + 1) ≤ 256 * 256 ^ bs.length :=
      Nat.mul_le_mul_left 256 hbs
    rw [ctrVal_cons, List.length_cons, pow_succ]
    omega

/-- incCounter realises the increment of the little-endian value modulo
256 to the byte length. -/
theorem incCounter_val (l : List Nat) (h : ∀ b ∈ l, b < 256) :
    ctrVal (incCounter l) = (ctrVal l + 1) % 256 ^ l.length := by
  induction l with
  | nil => simp [incCounter, ctrVal]
  | cons b bs ih =>
    have hb : b < 256 := h b (by simp)
    have hbs : ctrVal bs < 256 ^ bs.length := ctrVal_lt bs (fun x hx => h x (by simp [hx]))
    by_cases hwrap : (b + 1) % 256 = 0
    · have hb255 : b = 255 := by omega
      have ihs := ih (fun x hx => h x (by simp [hx]))
      simp only [incCounter]
      rw [if_pos hwrap, ctrVal_cons, ctrVal_cons, List.length_cons, ihs, hb255, pow_succ]
      have heq : 255 + 256 * ctrVal bs + 1 = 256 * (ctrVal bs + 1) := by ring
      rw [heq, Nat.mul_comm (256 ^ bs.length) 256, Nat.mul_mod_mul_left]
      omega
    · have hlt : b + 1 < 256 := by omega
      have hmod : (b + 1) % 256 = b + 1 := Nat.mod_eq_of_lt hlt
      simp only [incCounter]
      rw [if_neg hwrap, ctrVal_cons, ctrVal_cons, List.length_cons, hmod, pow_succ]
      have h2 : 256 * (ctrVal bs + 1) ≤ 256 * 256 ^ bs.length :=
        Nat.mul_le_mul_left 256 hbs
      have hfits : b + 256 * ctrVal bs + 1 < 256 ^ bs.length * 256 := by omega
      rw [Nat.mod_eq_of_lt hfits]
      omega

/-- C8 as amended: each increment of the counter adds one to its
128-bit little-endian value modulo 2 to the 128 — so the value strictly
increases except at the wrap from the all-0xff counter — and the state
transitions perform exactly one increment per Reseed and per Write and
exactly one increment per block-cipher invocation in generateBlocks. -/
theorem counter_increment_semantics (c : List Nat)
    (hb : ∀ b ∈ c, b < 256) (hl : c.length = 16) :
    (ctrVal (incCounter c) = (ctrVal c + 1) % 2 ^ 128) ∧
    (ctrVal c + 1 < 2 ^ 128 → ctrVal (incCounter c) = ctrVal c + 1) ∧
    (∀ (g : Generator) (s : String), (Generator.reseed g s).ctr = incCounter g.ctr) ∧
    (∀ (g : Generator) (bs : List Nat), ((Generator.write g bs).2).ctr = incCounter g.ctr) ∧
    (∀ (enc : List Nat → List Nat → List Nat) (g : Generator) (k : Nat)
       (r : List Nat) (g2 : Generator), g.generateBlocks enc k = .ok (r, g2) →
         g2.ctr = incCounter^[k] g.ctr) := by
  have hpow : (256 : Nat) ^ c.length = 2 ^ 128 := by
    rw [hl]
    norm_num
  have hmain : ctrVal (incCounter c) = (ctrVal c + 1) % 2 ^ 128 := by
    rw [incCounter_val c hb, hpow]
  refine ⟨hmain, ?_, fun g s => rfl, fun g bs => rfl, ?_⟩
  · intro hsmall
    rw [hmain, Nat.mod_eq_of_lt hsmall]
  · intro enc g k r g2 hok
    unfold Generator.generateBlocks at hok
    by_cases hkey : g.key.length = 16 ∨ g.key.length = 24 ∨ g.key.length = 32
    · rw [if_pos hkey] at hok
      have h2 := (Except.ok.injEq _ _).mp hok
      have hctr : (generateBlocksGo enc g.key k g.ctr).2 = g2.ctr := by
        have h3 := congrArg (fun p : List Nat × Generator => p.2.ctr) h2
        simpa using h3
      rw [← hctr, generateBlocksGo_ctr]
    · rw [if_neg hkey] at hok
      exact absurd hok (by simp)

/-- C8 counterexample: at the all-0xff counter one further increment —
exactly what one more cipher invocation or reseed performs — wraps the
128-bit little-endian value to zero, so the value is not non-decreasing
there. -/
theorem counter_wrap_counterexample :
    ctrVal (incCounter (List.replicate 16 255)) < ctrVal (List.replicate 16 255) := by
  decide

/-- Witness for the amended C8 at the all-zero counter of a fresh
generator. -/
theorem counter_increment_semantics_witness :
    ctrVal (incCounter (List.replicate 16 0)) = (ctrVal (List.replicate 16 0) + 1) % 2 ^ 128 :=
  (counter_increment_semantics (List.replicate 16 0) (by decide) (by decide)).1

/-! Claim C9. -/

/-- Generator states reachable through the public operations of
src/fortuna/fortuna.go: the fresh state and anything obtained by
Reseed, Write or Read. -/
inductive Generator.Reachable (enc : List Nat → List Nat → List Nat) : Generator → Prop where
  | base : Generator.Reachable enc Generator.new
  | reseedStep (g : Generator) (s : String) :
      Generator.Reachable enc g → Generator.Reachable enc (g.reseed s)
  | writeStep (g : Generator) (bs : List Nat) :
      Generator.Reachable enc g → Generator.Reachable enc ((g.write bs).2)
  | readStep (g : Generator) (bs : Option (List Nat)) :
      Generator.Reachable enc g → Generator.Reachable enc ((g.read enc bs).2.2.2)

/-- Read never changes the length of the generator key. -/
theorem read_key_length (enc : List Nat → List Nat → List Nat)
    (g : Generator) (bs : Option (List Nat)) :
    ((g.read enc bs).2.2.2).key.length = g.key.length := by
  cases bs with
  | none => rfl
  | some b =>
    by_cases hb : b.length > MaxRead
    · simp [Generator.read, hb]
    · by_cases hkey : g.key.length = 16 ∨ g.key.length = 24 ∨ g.key.length = 32
      · simp [Generator.read, hb, Generator.generateBlocks, hkey, listCopy_length]
      · simp [Generator.read, hb, Generator.generateBlocks, hkey]

/-- Every reachable generator state carries a 32-byte key. -/
theorem reachable_key_length (enc : List Nat → List Nat → List Nat)
    (g : Generator) (h : Generator.Reachable enc g) : g.key.length = 32 := by
  induction h with
  | base => rfl
  | reseedStep g s hr ih =>
    simp [Generator.reseed, Generator.reseedBytes, listCopy_length, ih]
  | writeStep g bs hr ih =>
    simp [Generator.write, Generator.reseedBytes, listCopy_length, ih]
  | readStep g bs hr ih =>
    rw [read_key_length, ih]

/-- C9: on every reachable generator state the key has exactly 32
bytes, hence the cipher-construction branch of generateBlocks never
fails for any block count, and Read on a destination within MaxRead
returns no error at all. -/
theorem cipher_error_unreachable (enc : List Nat → List Nat → List Nat)
    (g : Generator) (h : Generator.Reachable enc g) :
    g.key.length = 32 ∧
    (∀ k, g.generateBlocks enc k =
        .ok ((generateBlocksGo enc g.key k g.ctr).1,
             { g with ctr := (generateBlocksGo enc g.key k g.ctr).2 })) ∧
    (∀ bs : List Nat, bs.length ≤ MaxRead → (g.read enc (some bs)).2.2.1 = none) := by
  have hk := reachable_key_length enc g h
  refine ⟨hk, fun k => generateBlocks_ok enc g hk k, ?_⟩
  intro bs hbs
  have hgt : ¬ bs.length > MaxRead := by omega
  simp [Generator.read, hgt, generateBlocks_ok, hk]

/-- Witness for C9: a concrete read of one byte on the fresh generator
under the placeholder cipher reports no error. -/
theorem cipher_error_unreachable_witness :
    (Generator.new.read encDummy (some [0])).2.2.1 = none :=
  (cipher_error_unreachable encDummy Generator.new Generator.Reachable.base).2.2 [0] (by decide)
